import Mathlib

/-
Verification of the HackLeeSDK execution sandbox (src/code_run.py) and the
agent-team orchestration / human-input bridge (src/app.py), as a shallow
embedding in Lean 4.  Python exceptions are modelled with an explicit
`Except PyExc` result; the process environment (which binaries exist, what
the external processes print and return) is an explicit `JavaEnv` record;
the working directory is an association list from file names to contents.
-/

namespace HackLee

/-- Does the second character list occur at the head of the first? -/
def charsMatchAt : List Char → List Char → Bool
  | [], _ => true
  | _ :: _, [] => false
  | a :: as, b :: bs => a == b && charsMatchAt as bs

/-- Does the second character list occur contiguously anywhere inside the
first? -/
def charsContain : List Char → List Char → Bool
  | [], pat => pat.isEmpty
  | a :: rest, pat => charsMatchAt pat (a :: rest) || charsContain rest pat

/-- Python substring test `pat in s`. -/
def strContains (s pat : String) : Bool :=
  charsContain s.toList pat.toList

/-- A Python exception value as raised/caught in src/code_run.py.  All
constructors here model subclasses of `Exception`; `fileNotFoundError`
carries no message because the code never reads it. -/
inductive PyExc where
  | valueError (msg : String)
  | eofError (msg : String)
  | attributeError (msg : String)
  | exception (msg : String)
  | fileNotFoundError
  | osError (msg : String)
deriving DecidableEq, Repr

/-- Python `str(e)` for the exceptions above, as used in the
`f"Execution failed: {str(e)}"` and `f"Compilation error: {str(e)}"`
format strings. -/
def pyStr : PyExc → String
  | .valueError m => m
  | .eofError m => m
  | .attributeError m => m
  | .exception m => m
  | .fileNotFoundError => ""
  | .osError m => m

/-- The file system of the shared working directory: an association list
from file name to file content (most recent write first). -/
abbrev FS := List (String × String)

/-- Write (create or overwrite) a file, as Python `open(name, 'w')` plus
`write`. -/
def fsWrite (fs : FS) (name content : String) : FS :=
  (name, content) :: (fs : List (String × String)).filter (fun p => p.1 ≠ name)

/-- Look up a file's content. -/
def fsLookup (fs : FS) (name : String) : Option String :=
  (fs : List (String × String)).lookup name

/-- Python `os.path.exists(name)`. -/
def fsExists (fs : FS) (name : String) : Bool :=
  (fsLookup fs name).isSome

/-- Python `os.remove(name)`. -/
def fsRemove (fs : FS) (name : String) : FS :=
  (fs : List (String × String)).filter (fun p => p.1 ≠ name)

/-- The behaviour of the external toolchain and of the fallible I/O steps
during one sandbox invocation: whether `javac`/`java` exist on PATH, what
they return and print, whether the source-file write or the `javac` call
raises some other exception, and whether the cleanup `os.remove` call
itself fails. -/
structure JavaEnv where
  javacAvailable : Bool
  javacReturncode : Nat
  javacStderr : String
  writeExc : Option PyExc
  javacOtherExc : Option PyExc
  removeExc : Bool
  javaAvailable : Bool
  javaReturncode : Nat
  javaStdout : String
  javaStderr : String
deriving Repr

/-- The fixed class name `Main` (local `class_name` in `compile_java_code`). -/
def class_name : String := "Main"

/-- The file name the invocation writes its source to
(local `file_name = f"{class_name}.java"`); note it depends on nothing:
in particular not on the program text or any invocation identity. -/
def file_name : String := class_name ++ ".java"

/-- The write of the candidate source into the working area, as performed
by `compile_java_code` (`with open(file_name, 'w') as writer:
writer.write(code)`). -/
def sourceWrite (fs : FS) (code : String) : FS :=
  fsWrite fs file_name code

/-- Diagnostic returned when the `javac` binary is missing. -/
def javacMissingMsg : String :=
  "Java compiler (javac) not found. Please ensure Java JDK is installed and in PATH."

/-- Diagnostic returned when the `java` binary is missing. -/
def javaMissingMsg : String :=
  "Java runtime (java) not found. Please ensure Java is installed and in PATH."

/-- The `try` body of `compile_java_code` from src/code_run.py: write
`Main.java`, run `javac` (raising `FileNotFoundError` when the binary is
missing, and creating `Main.class` on a zero exit), and return `none` on
success or `some stderr` on a nonzero compiler exit.  `.error` marks an
exception leaving the body for the handlers. -/
def compile_body (env : JavaEnv) (code : String) (fs : FS) :
    Except PyExc (Option String) × FS :=
  match env.writeExc with
  | some e => (.error e, fs)
  | none =>
    let fs1 := sourceWrite fs code
    if env.javacAvailable = false then
      (.error .fileNotFoundError, fs1)
    else
      match env.javacOtherExc with
      | some e => (.error e, fs1)
      | none =>
        if env.javacReturncode ≠ 0 then
          (.ok (some env.javacStderr), fs1)
        else
          (.ok none, fsWrite fs1 (class_name ++ ".class") ("bytecode:" ++ code))

/-- The two handlers of `compile_java_code`: `except FileNotFoundError`
returns the javac-missing message, `except Exception as e` returns
"Compilation error: " plus the exception text; a normal return passes
through. -/
def applyHandlers : Except PyExc (Option String) → Except PyExc (Option String)
  | .error .fileNotFoundError => .ok (some javacMissingMsg)
  | .error e => .ok (some ("Compilation error: " ++ pyStr e))
  | .ok r => .ok r

/-- The `finally` block of `compile_java_code`: if `Main.java` exists,
attempt `os.remove`; a failing removal is swallowed by the bare
`except: pass`, leaving the file behind. -/
def cleanupFS (env : JavaEnv) (fs : FS) : FS :=
  if fsExists fs file_name then
    if env.removeExc then fs else fsRemove fs file_name
  else fs

/-- Function `compile_java_code` from src/code_run.py: the `try` body, its two
`except` handlers, and the `finally` cleanup.  The result is the Python
return value (an escaping exception would be `.error`) together with the
final file system. -/
def compile_java_code (env : JavaEnv) (code : String) (fs : FS) :
    Except PyExc (Option String) × FS :=
  (applyHandlers (compile_body env code fs).1,
   cleanupFS env (compile_body env code fs).2)

/-- Function `run_java_class` from src/code_run.py.  A missing `java` binary
(`FileNotFoundError` from `Popen`) is caught and returned as the
java-missing message; on a nonzero exit the stderr text is scanned for
sentinel substrings in source order and a correspondingly classified
exception is raised (`ValueError`, `EOFError`, `AttributeError`, or a
generic `Exception` embedding the raw stderr), which the
`except Exception: raise` handler re-raises to the caller; on a zero
exit the captured stdout is returned.  `input_data` is delivered to the
process, whose resulting behaviour the environment records. -/
def run_java_class (env : JavaEnv) (_input_data : String) : Except PyExc String :=
  if env.javaAvailable = false then
    .ok javaMissingMsg
  else if env.javaReturncode ≠ 0 then
    if strContains env.javaStderr "InputMismatchException" then
      .error (.valueError "The input is of an incorrect type.")
    else if strContains env.javaStderr "NoSuchElementException" then
      .error (.eofError "Scanner tried to read but no input was provided.")
    else if strContains env.javaStderr "NullPointerException" then
      .error (.attributeError "A null object was accessed in the executed code.")
    else
      .error (.exception ("Error in execution: " ++ env.javaStderr))
  else
    .ok env.javaStdout

/-- Python truthiness of `compile_java_code`'s result as tested by
`if compilation_error:` — `None` and the empty string are falsy. -/
def truthy : Option String → Bool
  | none => false
  | some s => s ≠ ""

/-- Function `compile_and_run_java` from src/code_run.py: compile, and on a truthy
compile diagnostic return "Compilation failed:\n" plus it; otherwise run
the class, returning its output, with `except Exception` converting any
exception raised by `run_java_class` into "Execution failed: " plus the
exception text. -/
def compile_and_run_java (env : JavaEnv) (code input_data : String) (fs : FS) :
    Except PyExc String × FS :=
  let compiled := compile_java_code env code fs
  match compiled with
  | (.error e, fs1) => (.error e, fs1)
  | (.ok compilation_error, fs1) =>
    if truthy compilation_error then
      (.ok ("Compilation failed:\n" ++ compilation_error.getD ""), fs1)
    else
      match run_java_class env input_data with
      | .ok output => (.ok output, fs1)
      | .error e => (.ok ("Execution failed: " ++ pyStr e), fs1)

/-! ### Specification-side notions for the sandbox claims -/

/-- The runtime-failure kinds the specification names for a classified
nonzero exit. -/
inductive FailureKind where
  | typeMismatch
  | emptyInput
  | nullDereference
  | unclassified
deriving DecidableEq, Repr

/-- Modelled from the spec (claim side, to be compared with the code):
scan the diagnostic stream for known sentinel substrings in priority
order — type mismatch, then "no such element", then null dereference —
and fall through to Unclassified. -/
def classifyDiagnostic (stderr : String) : FailureKind :=
  if strContains stderr "InputMismatchException" then .typeMismatch
  else if strContains stderr "NoSuchElementException" then .emptyInput
  else if strContains stderr "NullPointerException" then .nullDereference
  else .unclassified

/-- The failure kind each classified exception of `run_java_class`
realises: `ValueError` is the type-mismatch outcome, `EOFError` the
empty-input outcome, `AttributeError` the null-dereference outcome, and
the generic `Exception` the unclassified outcome. -/
def kindOfExc : PyExc → Option FailureKind
  | .valueError _ => some .typeMismatch
  | .eofError _ => some .emptyInput
  | .attributeError _ => some .nullDereference
  | .exception _ => some .unclassified
  | .fileNotFoundError => none
  | .osError _ => none

/-- Does `s` begin with the string `pre`? -/
def strStartsWith (s pre : String) : Bool :=
  charsMatchAt pre.toList s.toList

/-- An environment for a fully successful invocation: both binaries
present, compile and run both exit zero, stdout "42", no injected
faults. -/
def envHappy : JavaEnv :=
  { javacAvailable := true, javacReturncode := 0, javacStderr := "",
    writeExc := none, javacOtherExc := none, removeExc := false,
    javaAvailable := true, javaReturncode := 0, javaStdout := "42", javaStderr := "" }

/-- An environment whose run step exits nonzero with a diagnostic
containing none of the sentinel substrings. -/
def envRuntimeBoom : JavaEnv :=
  { envHappy with javaReturncode := 1, javaStdout := "", javaStderr := "boom" }

/-- An environment whose run step dies with a "no such element"
diagnostic. -/
def envNoInput : JavaEnv :=
  { envHappy with
    javaReturncode := 1
    javaStdout := ""
    javaStderr := "java.util.NoSuchElementException" }

/-- An environment in which the `java` binary is missing while `javac`
succeeds. -/
def envJavaMissing : JavaEnv :=
  { envHappy with javaAvailable := false, javaStdout := "" }

/-- An environment in which the `javac` binary is missing. -/
def envJavacMissing : JavaEnv :=
  { envHappy with javacAvailable := false }

/-! ### The agent worker of src/app.py: human-input bridge -/

/-- The human-input bridge state inside `AgentWorker`: the `user_reply`
slot (`None` initially), the `user_reply_ready` asyncio event, and a
ghost flag `awaiting` instrumenting control flow — it is true exactly
while a `_user_input` coroutine is suspended at
`await self.user_reply_ready.wait()`.  The source code itself stores
only the first two fields. -/
structure BridgeState where
  user_reply : Option String
  ready : Bool
  awaiting : Bool
deriving DecidableEq, Repr

/-- An error value for the ProtocolViolation outcome the specification
describes for the bridge.  The source never constructs it. -/
inductive ProtocolViolation where
  | noOutstandingRequest
deriving DecidableEq, Repr

/-- The bridge state right after `AgentWorker.__init__`:
`self.user_reply = None`, `self.user_reply_ready = asyncio.Event()`
(clear), and no `_user_input` call suspended. -/
def initBridge : BridgeState :=
  { user_reply := none, ready := false, awaiting := false }

/-- Method `AgentWorker.set_user_reply` from src/app.py: unconditionally store
the reply and set the event.  The method body has no check and no raise,
so the result is always `.ok`; the ghost `awaiting` flag is neither read
nor written. -/
def set_user_reply (s : BridgeState) (reply : String) :
    Except ProtocolViolation BridgeState :=
  .ok { s with user_reply := some reply, ready := true }

/-- The first half of `AgentWorker._user_input`: emit the prompt through
the `user_prompt` signal and suspend on `await self.user_reply_ready.wait()`.
Returns the emitted prompt text together with the state now holding a
suspended coroutine. -/
def user_input_request (s : BridgeState) (prompt : String) :
    String × BridgeState :=
  (prompt, { s with awaiting := true })

/-- The second half of `AgentWorker._user_input`, runnable once the
`user_reply_ready` event is set (`s.ready = true`): read `self.user_reply`,
reset the slot to `None`, clear the event, and return the read reply.
The suspended coroutine resumes, so the ghost flag clears. -/
def user_input_resume (s : BridgeState) (_h : s.ready = true) :
    Option String × BridgeState :=
  (s.user_reply, { user_reply := none, ready := false, awaiting := false })

/-! ### The agent worker of src/app.py: team construction -/

/-- A termination condition value `TextMentionTermination(text, sources)`
as constructed in `_run_agent_team`; `sources = none` is Python's default
`sources=None`. -/
structure TermCond where
  text : String
  sources : Option (List String)
deriving DecidableEq, Repr

mutual
/-- A participant of a `RoundRobinGroupChat` as assembled in
`_run_agent_team`: an `AssistantAgent` (by name), the `UserProxyAgent`
(by name), or a nested team. -/
inductive Participant where
  | assistant (name : String)
  | userProxy (name : String)
  | nested (t : GroupChat)

/-- A `RoundRobinGroupChat(participants, termination_condition=cond)`. -/
inductive GroupChat where
  | mk (participants : List Participant) (cond : TermCond)
end

/-- Agent `coding_agent` of `_run_agent_team` (its tool and system message do
not bear on the team structure). -/
def coding_agent : Participant := .assistant "Coding_Agent"

/-- Agent `critic_agent` of `_run_agent_team`. -/
def critic_agent : Participant := .assistant "Critic_Agent"

/-- Value `user_proxy = UserProxyAgent(name="user_proxy", input_func=self._user_input)`. -/
def user_proxy : Participant := .userProxy "user_proxy"

/-- Value `outter_termination = TextMentionTermination("exit", sources=["user_proxy"])`. -/
def outter_termination : TermCond :=
  { text := "exit", sources := some ["user_proxy"] }

/-- Value `inner_chat = RoundRobinGroupChat([coding_agent, critic_agent],
termination_condition=TextMentionTermination("Approved"))`. -/
def inner_chat : GroupChat :=
  .mk [coding_agent, critic_agent] { text := "Approved", sources := none }

/-- Value `team = RoundRobinGroupChat([inner_chat, user_proxy],
termination_condition=outter_termination)`. -/
def team : GroupChat :=
  .mk [.nested inner_chat, user_proxy] outter_termination

/-- Modelled from the spec: the matching semantics of the external
`TextMentionTermination` condition, whose source is not part of this
repository — "TextMention(t, S) matches iff the latest message's content
contains t verbatim and its sender is in S (or S = any)". -/
def condMatches (c : TermCond) (sender content : String) : Bool :=
  strContains content c.text &&
    match c.sources with
    | none => true
    | some srcs => srcs.contains sender

/-! ### The agent worker of src/app.py: run event stream -/

/-- One item yielded by `team.run_stream(task=task)`: either a
`TaskResult` (skipped by the `isinstance` check) or a message, carried
here as its JSON dump. -/
inductive StreamItem where
  | taskResult
  | message (payload : String)
deriving DecidableEq, Repr

/-- How the body of the `try` block in `_run_agent_team` unfolds: either
the stream runs to completion yielding these items, or an uncaught
exception with the given text interrupts it after the listed items were
yielded (covering failures in client/agent setup, with `items = []`, and
failures mid-stream). -/
inductive RunOutcome where
  | ok (items : List StreamItem)
  | fail (items : List StreamItem) (e : String)
deriving DecidableEq, Repr

/-- One emission observable from `AgentWorker._run_agent_team`: a
`message_received` signal carrying a sys / forwarded-message / done /
error payload, or the `task_finished` signal. -/
inductive Event where
  | sysMsg (s : String)
  | msg (payload : String)
  | done
  | errorMsg (s : String)
  | taskFinished
deriving DecidableEq, Repr

/-- Forwarding of stream items inside the `async for` loop:
`TaskResult` items are skipped (`continue`), every other message is
emitted via `message_received`. -/
def emitItems (items : List StreamItem) : List Event :=
  items.filterMap fun
    | .taskResult => none
    | .message p => some (.msg p)

/-- The initial sys-message text of `_run_agent_team`; the source wraps
the problem text in single quotation marks, elided here. -/
def assemblingMsg (problem : String) : String :=
  "Received problem " ++ problem ++ ". Assembling agent team..."

/-- Method `AgentWorker._run_agent_team` from src/app.py as its emitted event
sequence: the initial sys message; then the `try` body forwarding stream
items and emitting the done message on normal completion; `except
Exception` emitting an error message instead; and `finally` emitting
`task_finished` on every path. -/
def run_agent_team (problem : String) (o : RunOutcome) : List Event :=
  [.sysMsg (assemblingMsg problem)] ++
    (match o with
     | .ok items => emitItems items ++ [.done]
     | .fail items e => emitItems items ++ [.errorMsg e]) ++
    [.taskFinished]

/-! ### Helper lemmas -/

theorem charsMatchAt_append_self (l l2 : List Char) :
    charsMatchAt l (l ++ l2) = true := by
  induction l with
  | nil => rfl
  | cons a as ih => simp [charsMatchAt, ih]

theorem strStartsWith_of_eq_append (pre rest s : String) (h : s = pre ++ rest) :
    strStartsWith s pre = true := by
  subst h
  show charsMatchAt pre.data (pre ++ rest).data = true
  rw [String.data_append]
  exact charsMatchAt_append_self _ _

theorem strAppend_assoc (a b c : String) : a ++ b ++ c = a ++ (b ++ c) := by
  apply String.ext
  simp [String.data_append]

theorem fsLookup_fsRemove (fs : FS) (n : String) :
    fsLookup (fsRemove fs n) n = none := by
  unfold fsRemove fsLookup
  induction fs with
  | nil => rfl
  | cons p rest ih =>
    obtain ⟨k, b⟩ := p
    rw [List.filter_cons]
    by_cases h : k = n
    · rw [if_neg (by simp [h])]
      exact ih
    · rw [if_pos (by simp [h])]
      simp only [List.lookup_cons, beq_false_of_ne (Ne.symm h)]
      exact ih

theorem fsExists_cleanupFS (env : JavaEnv) (fs : FS) (h : env.removeExc = false) :
    fsExists (cleanupFS env fs) file_name = false := by
  unfold cleanupFS
  cases he : fsExists fs file_name with
  | true => simp [he, h, fsExists, fsLookup_fsRemove]
  | false => simp [he]

theorem applyHandlers_ok (r : Except PyExc (Option String)) :
    ∃ v, applyHandlers r = .ok v := by
  cases r with
  | ok v => exact ⟨v, rfl⟩
  | error e => cases e <;> exact ⟨_, rfl⟩

theorem compile_java_code_total (env : JavaEnv) (code : String) (fs : FS) :
    ∃ v fs2, compile_java_code env code fs = (.ok v, fs2) := by
  obtain ⟨v, hv⟩ := applyHandlers_ok (compile_body env code fs).1
  exact ⟨v, cleanupFS env (compile_body env code fs).2, by unfold compile_java_code; rw [hv]⟩

theorem run_java_class_ok_cases (env : JavaEnv) (input o : String)
    (h : run_java_class env input = .ok o) :
    o = javaMissingMsg ∨ o = env.javaStdout := by
  unfold run_java_class at h
  by_cases h1 : env.javaAvailable = false
  · rw [if_pos h1] at h
    exact .inl (Except.ok.inj h).symm
  · rw [if_neg h1] at h
    by_cases h2 : env.javaReturncode ≠ 0
    · rw [if_pos h2] at h
      by_cases h3 : strContains env.javaStderr "InputMismatchException" = true <;>
        by_cases h4 : strContains env.javaStderr "NoSuchElementException" = true <;>
        by_cases h5 : strContains env.javaStderr "NullPointerException" = true <;>
        simp [h3, h4, h5] at h
    · rw [if_neg h2] at h
      exact .inr (Except.ok.inj h).symm

theorem compile_and_run_master (env : JavaEnv) (code input : String) (fs : FS) :
    ∃ out, compile_and_run_java env code input fs =
        (.ok out, (compile_java_code env code fs).2) ∧
      ((∃ d, out = "Compilation failed:" ++ d) ∨
       (∃ d, out = "Execution failed:" ++ d) ∨
       out = env.javaStdout ∨ out = javaMissingMsg) := by
  obtain ⟨v, hv⟩ := applyHandlers_ok (compile_body env code fs).1
  have hc : compile_java_code env code fs =
      (.ok v, cleanupFS env (compile_body env code fs).2) := by
    unfold compile_java_code; rw [hv]
  cases ht : truthy v with
  | true =>
    refine ⟨"Compilation failed:\n" ++ v.getD "", ?_, .inl ⟨"\n" ++ v.getD "", ?_⟩⟩
    · simp [compile_and_run_java, hc, ht]
    · rw [show ("Compilation failed:\n" : String) = "Compilation failed:" ++ "\n" by decide,
        strAppend_assoc]
  | false =>
    cases hr : run_java_class env input with
    | error e =>
      refine ⟨"Execution failed: " ++ pyStr e, ?_, .inr (.inl ⟨" " ++ pyStr e, ?_⟩)⟩
      · simp [compile_and_run_java, hc, ht, hr]
      · rw [show ("Execution failed: " : String) = "Execution failed:" ++ " " by decide,
          strAppend_assoc]
    | ok o =>
      rcases run_java_class_ok_cases env input o hr with h | h
      · exact ⟨o, by simp [compile_and_run_java, hc, ht, hr], .inr (.inr (.inr h))⟩
      · exact ⟨o, by simp [compile_and_run_java, hc, ht, hr], .inr (.inr (.inl h))⟩

theorem emitItems_no_tf (items : List StreamItem) (ev : Event)
    (h : ev ∈ emitItems items) : ev ≠ Event.taskFinished := by
  rw [emitItems, List.mem_filterMap] at h
  obtain ⟨b, _, hb⟩ := h
  cases b with
  | taskResult => cases hb
  | message p =>
    cases hb
    intro hcontra
    cases hcontra

/-! ### Claim C1 -/

/-- C1: for every sandbox execution whose external process exits nonzero,
`run_java_class` scans the diagnostic stream for sentinel substrings in
priority order and classifies the failure — the type-mismatch signal
yields the type-mismatch outcome (raised as `ValueError`), the
"no such element" signal the empty-input outcome (`EOFError`), the
null-dereference signal the null-dereference outcome (`AttributeError`),
and any other nonzero exit the unclassified outcome with the raw
diagnostic text preserved (generic `Exception`); an earlier sentinel in
the priority order wins. -/
theorem C1_runtime_failure_classification (env : JavaEnv) (input : String)
    (hA : env.javaAvailable = true) (hR : env.javaReturncode ≠ 0) :
    ∃ e, run_java_class env input = .error e ∧
      kindOfExc e = some (classifyDiagnostic env.javaStderr) ∧
      (classifyDiagnostic env.javaStderr = .unclassified →
        pyStr e = "Error in execution: " ++ env.javaStderr) := by
  unfold run_java_class classifyDiagnostic
  rw [if_neg (by simp [hA]), if_pos hR]
  by_cases h1 : strContains env.javaStderr "InputMismatchException" = true
  · exact ⟨_, by rw [if_pos h1], by simp [h1, kindOfExc], by simp [h1]⟩
  · by_cases h2 : strContains env.javaStderr "NoSuchElementException" = true
    · exact ⟨_, by rw [if_neg h1, if_pos h2], by simp [h1, h2, kindOfExc],
        by simp [h1, h2]⟩
    · by_cases h3 : strContains env.javaStderr "NullPointerException" = true
      · exact ⟨_, by rw [if_neg h1, if_neg h2, if_pos h3],
          by simp [h1, h2, h3, kindOfExc], by simp [h1, h2, h3]⟩
      · exact ⟨_, by rw [if_neg h1, if_neg h2, if_neg h3],
          by simp [h1, h2, h3, kindOfExc], by simp [h1, h2, h3, pyStr]⟩

/-- Witness for C1 at a concrete environment: a nonzero exit whose
diagnostic carries the "no such element" sentinel is classified as the
empty-input outcome. -/
theorem C1_witness :
    envNoInput.javaAvailable = true ∧ envNoInput.javaReturncode ≠ 0 ∧
    ∃ e, run_java_class envNoInput "" = .error e ∧
      kindOfExc e = some (classifyDiagnostic envNoInput.javaStderr) ∧
      (classifyDiagnostic envNoInput.javaStderr = .unclassified →
        pyStr e = "Error in execution: " ++ envNoInput.javaStderr) :=
  ⟨rfl, by decide, C1_runtime_failure_classification envNoInput "" rfl (by decide)⟩

/-! ### Claim C2 -/

/-- C2 counterexample: `run_java_class` does raise past its boundary.  In
an environment where the process exits nonzero with the unclassified
diagnostic "boom", `run_java_class` propagates a raised exception
(`.error`) to its caller instead of returning the failure as data,
refuting the claim that the operation never raises past the sandbox
boundary to its caller. -/
theorem C2_counterexample :
    run_java_class envRuntimeBoom "" =
      .error (.exception ("Error in execution: boom")) := by
  rfl

/-- C2 amended: `compile_java_code` and `compile_and_run_java` return
failures as data and never let an exception escape; `run_java_class`
raises classified exceptions, but its only caller,
`compile_and_run_java`, catches them, so no exception passes the
outermost sandbox boundary. -/
theorem C2_amended_boundary_returns_data (env : JavaEnv) (code input : String)
    (fs : FS) :
    (∃ v fs2, compile_java_code env code fs = (.ok v, fs2)) ∧
    (∃ out fs2, compile_and_run_java env code input fs = (.ok out, fs2)) := by
  refine ⟨compile_java_code_total env code fs, ?_⟩
  obtain ⟨out, hm, _⟩ := compile_and_run_master env code input fs
  exact ⟨out, _, hm⟩

/-! ### Claim C3 -/

/-- C3 counterexample: when the `java` binary is missing,
`compile_and_run_java` returns the java-missing message verbatim — a
text that carries neither failure prefix and is not the program's stdout
(no program ran; the environment records no standard output), so the
invocation returns text outside the three claimed shapes. -/
theorem C3_counterexample :
    (compile_and_run_java envJavaMissing "A" "" []).1 = .ok javaMissingMsg ∧
    (¬ ∃ d, javaMissingMsg = "Compilation failed:" ++ d) ∧
    (¬ ∃ d, javaMissingMsg = "Execution failed:" ++ d) ∧
    javaMissingMsg ≠ envJavaMissing.javaStdout := by
  refine ⟨by rfl, ?_, ?_, by decide⟩
  · rintro ⟨d, h⟩
    have h2 := strStartsWith_of_eq_append "Compilation failed:" d _ h
    exact absurd h2 (by decide)
  · rintro ⟨d, h⟩
    have h2 := strStartsWith_of_eq_append "Execution failed:" d _ h
    exact absurd h2 (by decide)

/-- C3 amended: every invocation of `compile_and_run_java` returns one of
four text shapes — "Compilation failed:" plus diagnostic, "Execution
failed:" plus detail, the program's stdout verbatim, or (when the `java`
binary is missing) the fixed java-missing message with no prefix. -/
theorem C3_amended_output_shapes (env : JavaEnv) (code input : String) (fs : FS) :
    ∃ out, (compile_and_run_java env code input fs).1 = .ok out ∧
      ((∃ d, out = "Compilation failed:" ++ d) ∨
       (∃ d, out = "Execution failed:" ++ d) ∨
       out = env.javaStdout ∨ out = javaMissingMsg) := by
  obtain ⟨out, hm, hs⟩ := compile_and_run_master env code input fs
  exact ⟨out, by rw [hm], hs⟩

/-! ### Claim C4 -/

/-- C4 counterexample: after a fully successful invocation starting from
an empty working area, the compiled artifact `Main.class` is still
present when `compile_and_run_java` returns — the working area is not
fully removed on the success exit path. -/
theorem C4_counterexample :
    fsExists (compile_and_run_java envHappy "A" "" []).2 (class_name ++ ".class") = true ∧
    (compile_and_run_java envHappy "A" "" []).1 = .ok "42" := by
  exact ⟨by decide, by rfl⟩

/-- C4 amended: on every exit path the written source file `Main.java` is
removed before the invocation returns, provided the removal call itself
does not fail (a failing `os.remove` is swallowed by the bare
`except: pass`); the compiled artifact `Main.class` is not removed. -/
theorem C4_amended_source_file_removed (env : JavaEnv) (code input : String)
    (fs : FS) (h : env.removeExc = false) :
    fsExists (compile_and_run_java env code input fs).2 file_name = false := by
  obtain ⟨out, hm, _⟩ := compile_and_run_master env code input fs
  rw [hm]
  show fsExists (compile_java_code env code fs).2 file_name = false
  exact fsExists_cleanupFS env _ h

/-- Witness for the amended C4 at a concrete fully successful
invocation. -/
theorem C4_witness :
    envHappy.removeExc = false ∧
    fsExists (compile_and_run_java envHappy "A" "" []).2 file_name = false :=
  ⟨rfl, C4_amended_source_file_removed envHappy "A" "" [] rfl⟩

/-! ### Claim C5 -/

/-- C5 counterexample: two distinct invocations (here with program texts
"A" and "B") both write to the single fixed path `Main.java`; the second
write overwrites the first invocation's source file, so invocations do
read and write each other's working-area files. -/
theorem C5_counterexample :
    fsLookup (sourceWrite [] "A") file_name = some "A" ∧
    fsLookup (sourceWrite (sourceWrite [] "A") "B") file_name = some "B" ∧
    fsLookup (sourceWrite (sourceWrite [] "A") "B") file_name ≠ some "A" := by
  exact ⟨by decide, by decide, by decide⟩

/-- C5 amended: every invocation uses the same fixed working area — the
file `Main.java` (and class `Main`) in the shared current directory,
keyed by nothing (`compile_java_code` receives no invocation identity) —
so a later invocation's source write overwrites the file of any earlier
one, for identical and for different program texts alike. -/
theorem C5_amended_fixed_working_area (c1 c2 : String) (fs : FS) :
    fsLookup (sourceWrite (sourceWrite fs c1) c2) file_name = some c2 := by
  simp [sourceWrite, fsWrite, fsLookup, List.lookup_cons]

/-! ### Claim C6 -/

/-- C6: the orchestrator builds exactly the two-level structure — an
inner team of the coding agent then the critic agent terminated by a
mention of "Approved" from any sender, nested as a single participant
beside the human proxy in the outer team terminated by a mention of
"exit" restricted to the `user_proxy` sender. -/
theorem C6_team_structure :
    team = GroupChat.mk
      [Participant.nested (GroupChat.mk
          [Participant.assistant "Coding_Agent", Participant.assistant "Critic_Agent"]
          { text := "Approved", sources := none }),
        Participant.userProxy "user_proxy"]
      { text := "exit", sources := some ["user_proxy"] } ∧
    (∀ sender content,
      condMatches { text := "Approved", sources := none } sender content =
        strContains content "Approved") ∧
    (∀ sender content,
      (condMatches outter_termination sender content = true ↔
        strContains content "exit" = true ∧ sender = "user_proxy")) := by
  refine ⟨rfl, ?_, ?_⟩
  · intro sender content
    simp [condMatches]
  · intro sender content
    have hc : (["user_proxy"] : List String).contains sender = (sender == "user_proxy") := by
      cases h : sender == "user_proxy" <;> simp [List.contains, List.elem, h]
    simp [condMatches, outter_termination, hc, Bool.and_eq_true, beq_iff_eq]

/-! ### Claim C7 -/

/-- C7: every run of the agent team emits exactly one terminal
`task_finished` signal, which ends the emission sequence, in both
outcomes; when an uncaught failure interrupts the stream, the error
event is still followed by the terminal signal. -/
theorem C7_exactly_one_terminal_completion (problem : String) (o : RunOutcome) :
    (∃ pre, run_agent_team problem o = pre ++ [Event.taskFinished] ∧
      Event.taskFinished ∉ pre) ∧
    (∀ items e, ∃ pre, run_agent_team problem (RunOutcome.fail items e) =
      pre ++ [Event.errorMsg e, Event.taskFinished]) := by
  constructor
  · cases o with
    | ok items =>
      refine ⟨Event.sysMsg (assemblingMsg problem) :: (emitItems items ++ [Event.done]),
        by simp [run_agent_team], ?_⟩
      intro hmem
      simp only [List.mem_cons, List.mem_append, List.mem_singleton] at hmem
      rcases hmem with h | h | h | h
      · exact Event.noConfusion h
      · exact emitItems_no_tf items _ h rfl
      · exact Event.noConfusion h
      · exact absurd h (List.not_mem_nil _)
    | fail items e =>
      refine ⟨Event.sysMsg (assemblingMsg problem) :: (emitItems items ++ [Event.errorMsg e]),
        by simp [run_agent_team], ?_⟩
      intro hmem
      simp only [List.mem_cons, List.mem_append, List.mem_singleton] at hmem
      rcases hmem with h | h | h | h
      · exact Event.noConfusion h
      · exact emitItems_no_tf items _ h rfl
      · exact Event.noConfusion h
      · exact absurd h (List.not_mem_nil _)
  · intro items e
    exact ⟨Event.sysMsg (assemblingMsg problem) :: emitItems items,
      by simp [run_agent_team]⟩

/-! ### Claim C8 -/

/-- C8 counterexample: in the freshly initialised bridge state no request
is outstanding (no `_user_input` coroutine is suspended), yet
`set_user_reply` returns successfully and silently records the reply and
sets the ready event — it does not fail with a protocol-violation
error. -/
theorem C8_counterexample :
    initBridge.awaiting = false ∧
    set_user_reply initBridge "hi" =
      .ok { user_reply := some "hi", ready := true, awaiting := false } :=
  ⟨rfl, rfl⟩

/-- C8 amended: `set_user_reply` never fails; in every bridge state —
in particular when no request is outstanding — it silently records the
reply and sets the ready event, ignoring the outstanding-request
status entirely. -/
theorem C8_amended_silent_record (s : BridgeState) (r : String) :
    set_user_reply s r = .ok { s with user_reply := some r, ready := true } :=
  rfl

/-! ### Claim C9 -/

/-- C9: a bridge request (prompt emitted, coroutine suspended) followed
by one supply resumes the suspended caller with exactly the supplied
reply, and afterwards the pending slot is cleared — reply reset, event
cleared, nothing suspended — so the next request starts from the clean
initial state. -/
theorem C9_request_supply_roundtrip (s : BridgeState) (prompt reply : String)
    (_hreply : s.user_reply = none) (_hready : s.ready = false) :
    (user_input_request s prompt).1 = prompt ∧
    ∃ s2, set_user_reply (user_input_request s prompt).2 reply = .ok s2 ∧
      ∃ h : s2.ready = true, user_input_resume s2 h = (some reply, initBridge) := by
  exact ⟨rfl, _, rfl, rfl, rfl⟩

/-- Witness for C9 at the initial bridge state with concrete prompt and
reply texts. -/
theorem C9_witness :
    (user_input_request initBridge "p").1 = "p" ∧
    ∃ s2, set_user_reply (user_input_request initBridge "p").2 "r" = .ok s2 ∧
      ∃ h : s2.ready = true, user_input_resume s2 h = (some "r", initBridge) :=
  C9_request_supply_roundtrip initBridge "p" "r" rfl rfl

/-! ### Claim C10 -/

/-- C10: `compile_java_code` is total at its interface — for every
environment (compiler missing, write failure, any other injected
exception, cleanup failure) and every code string it returns `.ok` with
either `none` (successful compile) or `some` diagnostic string, never
propagating an exception; moreover whenever the `try` body raised, the
returned value is a diagnostic string, not `none`. -/
theorem C10_compile_java_code_total (env : JavaEnv) (code : String) (fs : FS) :
    ∃ v fs2, compile_java_code env code fs = (.ok v, fs2) ∧
      (∀ e, (compile_body env code fs).1 = .error e → v ≠ none) := by
  obtain ⟨v, hv⟩ := applyHandlers_ok (compile_body env code fs).1
  refine ⟨v, cleanupFS env (compile_body env code fs).2,
    by unfold compile_java_code; rw [hv], ?_⟩
  intro e he
  rw [he] at hv
  cases e <;> simp [applyHandlers] at hv <;> simp [← hv]

/-- Witness for C10 at a concrete environment whose `try` body raises
(the `javac` binary is missing): the result is the javac-missing
diagnostic string. -/
theorem C10_witness :
    ∃ v fs2, compile_java_code envJavacMissing "A" [] = (.ok v, fs2) ∧
      (∀ e, (compile_body envJavacMissing "A" []).1 = .error e → v ≠ none) :=
  C10_compile_java_code_total envJavacMissing "A" []

end HackLee
